import Mathlib

/-!
Verification of the `Agent` lifecycle class of `agentuniverse/agent/agent.py`.

The embedding is shallow: Python runtime values are the inductive `Value`
(with Python truthiness), Python dicts are association lists with
insertion-order update semantics (`Dict`), a concrete agent subclass is a
structure bundling the `agent_model` together with the four abstract
methods (`input_keys`, `output_keys`, `parse_input`, `parse_result`), and
the lifecycle methods (`input_check`, `pre_parse_input`, `execute`,
`output_check`, `run`, `langchain_run`, `get_instance_code`) are functions
returning `Except PyException _` so that raised exceptions are explicit.

Effects that are external to the file are passed as parameters:
the current date (`datetime.now().strftime` in `pre_parse_input`) enters
as the string `today`; the planner registry (`PlannerManager`) enters as a
`Registry` function; the JSON-markdown parser of the LangChain library
enters `langchain_run` as a function `pjm`; logging is a no-op.

In Python, `parse_input(input_object, agent_input)` may mutate the
`agent_input` dict that is passed to it, and it also has a return value
that the caller discards.  To keep both effects visible the embedded
`parse_input` returns a pair: the first component is the state of the
`agent_input` argument after the call (the mutation effect), the second is
the method's return value.  `pre_parse_input` uses only the first
component, exactly as the source does.
-/

namespace AgentUniverse

/-- A Python runtime value, as far as the agent lifecycle inspects one:
`None`, booleans, integers, strings, lists and string-keyed dicts. -/
inductive Value where
  | none
  | bool (b : Bool)
  | int (n : Int)
  | str (s : String)
  | list (xs : List Value)
  | dict (d : List (String × Value))

/-- A Python dict with string keys, as an insertion-ordered association
list with unique keys maintained by `Dict.set`. -/
abbrev Dict := List (String × Value)

/-- Python truthiness of a value (`bool(v)`), as used by the `or`
operator in `pre_parse_input`. -/
def Value.isTruthy : Value → Bool
  | .none => false
  | .bool b => b
  | .int n => n != 0
  | .str s => s ≠ ""
  | .list xs => !xs.isEmpty
  | .dict d => !d.isEmpty

/-- The Python expression `a or b`: `a` when `a` is truthy, else `b`. -/
def pyOr (a b : Value) : Value :=
  if a.isTruthy then a else b

/-- Dict lookup: `d[k]` as an `Option` (`none` when the key is absent). -/
def Dict.get? : Dict → String → Option Value
  | [], _ => Option.none
  | (k2, v) :: rest, k => if k = k2 then some v else Dict.get? rest k

/-- The Python membership test `k in d.keys()`. -/
def Dict.containsKey (d : Dict) (k : String) : Bool :=
  (Dict.get? d k).isSome

/-- The Python method `d.get(k)` with its default: the stored value when
present, `None` when absent. -/
def Dict.getData (d : Dict) (k : String) : Value :=
  (d.get? k).getD Value.none

/-- Dict assignment `d[k] = v`: update in place when the key exists,
append otherwise (Python insertion-order semantics). -/
def Dict.set : Dict → String → Value → Dict
  | [], k, v => [(k, v)]
  | (k2, v2) :: rest, k, v =>
      if k = k2 then (k2, v) :: rest else (k2, v2) :: Dict.set rest k v

/-- `d.keys()` as a list. -/
def Dict.keys (d : Dict) : List String :=
  d.map (fun kv => kv.1)

/-- Modelled from the spec: `InputObject` (its module is not part of the
provided sources) is a read-only wrapper of the caller-supplied keyword
arguments with accessor `get_data(key)` returning the stored value or the
absent indicator `None`. -/
structure InputObject where
  params : Dict

/-- `InputObject.get_data(key)`: the stored value, or `None` when the key
is absent.  Modelled from the spec. -/
def InputObject.get_data (io : InputObject) (k : String) : Value :=
  Dict.getData io.params k

/-- Modelled from the spec: `OutputObject` (its module is not part of the
provided sources) wraps the final parsed result mapping with accessor
`get_data(key)`. -/
structure OutputObject where
  params : Dict

/-- `OutputObject.get_data(key)`: the stored value, or `None` when the key
is absent.  Modelled from the spec. -/
def OutputObject.get_data (oo : OutputObject) (k : String) : Value :=
  Dict.getData oo.params k

/-- The static descriptor `AgentModel`: the five loosely-typed
configuration mappings the source reads (`info`, `profile`, `plan`,
`memory`, `action`). -/
structure AgentModel where
  info : Dict
  profile : Dict
  plan : Dict
  memory : Dict
  action : Dict

/-- A planner instance: `Planner.invoke(agent_model, agent_input,
input_object) -> dict`, deterministic and synchronous. -/
abbrev PlannerFn := AgentModel → Dict → InputObject → Dict

/-- Modelled from the spec: the planner registry
(`PlannerManager().get_instance_obj(name)`), a lookup from the planner
name value to a planner instance; lookup failure propagates to the
caller unrecovered. -/
abbrev Registry := Value → Option PlannerFn

/-- A raised Python exception, distinguished the way the spec's error
taxonomy distinguishes them.  `input_check` raises
`Exception('Input must have key: ...')` (the spec's
`InputValidationError`); `output_check` raises
`Exception('Output type must be dict.')` or
`Exception('Output must have key: ...')` (the spec's
`OutputValidationError`); planner resolution failure and attribute
errors on the plan configuration propagate as-is. -/
inductive PyException where
  | inputValidation (msg : String)
  | outputValidation (msg : String)
  | attributeError (msg : String)
  | plannerResolution (msg : String)

/-- A concrete agent: the `agent_model` attribute plus the four abstract
methods a subclass provides.  `parse_input` returns the pair
(final state of the mutable `agent_input` argument, method return value);
`parse_result` may return any value, which `output_check` later vets. -/
structure Agent where
  agent_model : AgentModel
  input_keys : List String
  output_keys : List String
  parse_input : InputObject → Dict → Dict × Dict
  parse_result : Dict → Value

/-- `Agent.input_check`: raise on the first required input key missing
from the supplied keyword arguments. -/
def Agent.input_check (a : Agent) (kwargs : Dict) : Except PyException Unit :=
  match a.input_keys.find? (fun k => !(Dict.containsKey kwargs k)) with
  | some k => .error (.inputValidation ("Input must have key: " ++ k ++ "."))
  | Option.none => .ok ()

/-- `Agent.output_check`: the result must be a dict and must contain every
declared output key; on success the vetted dict is returned so that `run`
can wrap it into an `OutputObject`. -/
def Agent.output_check (a : Agent) (v : Value) : Except PyException Dict :=
  match v with
  | Value.dict d =>
    match a.output_keys.find? (fun k => !(Dict.containsKey d k)) with
    | some k => .error (.outputValidation ("Output must have key: " ++ k ++ "."))
    | Option.none => .ok d
  | _ => .error (.outputValidation "Output type must be dict.")

/-- The mapping `pre_parse_input` seeds before calling `parse_input`:
`chat_history`, `background`, `image_urls` via the `or`-defaulting reads
of the input object, and `date` set to the current date string. -/
def pre_parse_seed (today : String) (io : InputObject) : Dict :=
  let agent_input : Dict := []
  let agent_input := Dict.set agent_input "chat_history" (pyOr (io.get_data "chat_history") (.str ""))
  let agent_input := Dict.set agent_input "background" (pyOr (io.get_data "background") (.str ""))
  let agent_input := Dict.set agent_input "image_urls" (pyOr (io.get_data "image_urls") (.list []))
  let agent_input := Dict.set agent_input "date" (.str today)
  agent_input

/-- `Agent.pre_parse_input`: seed the standard fields, call the
subclass's `parse_input` on the seeded mapping, discard its return value,
and return the (possibly mutated) seeded mapping. -/
def Agent.pre_parse_input (a : Agent) (today : String) (io : InputObject) : Dict :=
  (a.parse_input io (pre_parse_seed today io)).1

/-- `Agent.execute`: read `agent_model.plan.get('planner').get('name')`,
resolve the planner in the registry, and invoke it.  A missing or
non-dict `planner` entry raises an attribute error exactly as the
chained `.get` does in Python; a failed registry lookup propagates as
planner-resolution failure (modelled from the spec: the registry itself
is outside the provided sources). -/
def Agent.execute (a : Agent) (registry : Registry) (input_object : InputObject)
    (agent_input : Dict) : Except PyException Dict :=
  match Dict.getData a.agent_model.plan "planner" with
  | Value.dict p =>
    match registry (Dict.getData p "name") with
    | some planner_base => .ok (planner_base a.agent_model agent_input input_object)
    | Option.none => .error (.plannerResolution "planner instance not found")
  | _ => .error (.attributeError "plan planner entry has no attribute get")

/-- `Agent.run`: the fixed lifecycle — `input_check`, wrap into an
`InputObject`, `pre_parse_input`, `execute`, `parse_result`,
`output_check`, wrap into an `OutputObject`. -/
def Agent.run (a : Agent) (registry : Registry) (today : String)
    (kwargs : Dict) : Except PyException OutputObject :=
  match a.input_check kwargs with
  | .error e => .error e
  | .ok _ =>
    let input_object : InputObject := ⟨kwargs⟩
    let agent_input := a.pre_parse_input today input_object
    match a.execute registry input_object agent_input with
    | .error e => .error e
    | .ok planner_result =>
      let agent_result := a.parse_result planner_result
      match a.output_check agent_result with
      | .error e => .error e
      | .ok d => .ok ⟨d⟩

/-- The state-threaded form of `run`.  The only instance attribute of
the class is `agent_model`, and no statement anywhere on the `run` path
assigns to `self`, so the faithful state-threaded translation returns
the agent unchanged alongside the result. -/
def Agent.runS (a : Agent) (registry : Registry) (today : String)
    (kwargs : Dict) : Except PyException OutputObject × Agent :=
  (a.run registry today kwargs, a)

/-- Modelled from the spec: the component type identifier of an agent
(`ComponentEnum.AGENT.value`, from a module outside the provided
sources). -/
def componentTypeAgentValue : String := "AGENT"

/-- ASCII `str.lower()`, as applied to the component type identifier. -/
def asciiLowerChar (c : Char) : Char :=
  if c.toNat ≥ 65 ∧ c.toNat ≤ 90 then Char.ofNat (c.toNat + 32) else c

/-- ASCII `str.lower()` over a whole string. -/
def asciiLower (s : String) : String :=
  ⟨s.data.map asciiLowerChar⟩

/-- Python `str(v)` as used by the f-string in `get_instance_code`.
Agent names in configurations are strings; the container renderings are
placeholders never relied on by any theorem (all theorems about
`get_instance_code` assume a string-valued name). -/
def Value.pyStr : Value → String
  | .none => "None"
  | .bool true => "True"
  | .bool false => "False"
  | .int n => toString n
  | .str s => s
  | .list _ => "<list>"
  | .dict _ => "<dict>"

/-- `Agent.get_instance_code`: the application name from process-wide
configuration (modelled from the spec as the parameter `appname`, since
`ApplicationConfigManager` is outside the provided sources), the
lower-cased component type value, and the agent's `info['name']`, joined
with dots. -/
def Agent.get_instance_code (a : Agent) (appname : String) : String :=
  let name := Dict.getData a.agent_model.info "name"
  appname ++ "." ++ asciiLower componentTypeAgentValue ++ "." ++ name.pyStr

/-- The keyword arguments `langchain_run` passes to `run`:
`run(**parse_result, callbacks=callbacks, **kwargs)`. -/
def langchain_kwargs (parse_result : Dict) (callbacks : Value) (kwargs : Dict) : Dict :=
  kwargs.foldl (fun (d : Dict) kv => Dict.set d kv.1 kv.2)
    (Dict.set parse_result "callbacks" callbacks)

/-- `Agent.langchain_run`: parse the JSON-markdown input with the
external parser `pjm` (the LangChain `parse_json_markdown`, passed as a
parameter); on parse failure log and return the sentinel error string;
otherwise run the lifecycle and project the output down to
`output_keys`. -/
def Agent.langchain_run (a : Agent) (pjm : String → Option Dict) (registry : Registry)
    (today : String) (input : String) (callbacks : Value)
    (kwargs : Dict) : Except PyException Value :=
  match pjm input with
  | Option.none => .ok (Value.str "Error , Your Action Input is not a valid JSON string")
  | some parse_result =>
    match a.run registry today (langchain_kwargs parse_result callbacks kwargs) with
    | .error e => .error e
    | .ok output_object =>
      .ok (Value.dict (a.output_keys.foldl
        (fun (d : Dict) (k : String) => Dict.set d k (output_object.get_data k)) []))

/-! ### Helper lemmas about `Dict` and `List.find?` -/

/-- If some element of the list satisfies the predicate, `find?` returns
one that does, and it is a member. -/
theorem find?_of_exists {α : Type} (p : α → Bool) (l : List α)
    (h : ∃ x ∈ l, p x = true) :
    ∃ y ∈ l, l.find? p = some y ∧ p y = true := by
  induction l with
  | nil => obtain ⟨x, hx, _⟩ := h; exact absurd hx (List.not_mem_nil x)
  | cons a t ih =>
    by_cases hpa : p a = true
    · exact ⟨a, List.mem_cons_self a t, by simp [List.find?, hpa], hpa⟩
    · obtain ⟨x, hx, hpx⟩ := h
      rcases List.mem_cons.mp hx with rfl | hxt
      · exact absurd hpx hpa
      · obtain ⟨y, hy, hfy, hpy⟩ := ih ⟨x, hxt, hpx⟩
        exact ⟨y, List.mem_cons_of_mem a hy,
          by simp [List.find?, Bool.of_not_eq_true hpa, hfy], hpy⟩

/-- If `find?` returns nothing, no member satisfies the predicate. -/
theorem all_false_of_find?_none {α : Type} (p : α → Bool) (l : List α)
    (h : l.find? p = Option.none) :
    ∀ x ∈ l, p x = false := by
  induction l with
  | nil => intro x hx; exact absurd hx (List.not_mem_nil x)
  | cons a t ih =>
    intro x hx
    by_cases hpa : p a = true
    · simp [List.find?, hpa] at h
    · rcases List.mem_cons.mp hx with rfl | hxt
      · exact Bool.of_not_eq_true hpa
      · exact ih (by simpa [List.find?, Bool.of_not_eq_true hpa] using h) x hxt

/-- If every member fails the predicate, `find?` returns nothing. -/
theorem find?_none_of_all_false {α : Type} (p : α → Bool) (l : List α)
    (h : ∀ x ∈ l, p x = false) :
    l.find? p = Option.none := by
  induction l with
  | nil => rfl
  | cons a t ih =>
    have ha := h a (List.mem_cons_self a t)
    have ht : List.find? p t = Option.none :=
      ih (fun x hx => h x (List.mem_cons_of_mem a hx))
    simp [List.find?, ha, ht]

/-- Looking up the key just set yields the value set. -/
theorem Dict.get?_set_self (d : Dict) (k : String) (v : Value) :
    Dict.get? (Dict.set d k v) k = some v := by
  induction d with
  | nil => simp [Dict.set, Dict.get?]
  | cons kv rest ih =>
    by_cases h : k = kv.1
    · simp [Dict.set, h, Dict.get?]
    · simp [Dict.set, h, Dict.get?, ih]

/-- Looking up a different key is unaffected by `set`. -/
theorem Dict.get?_set_ne (d : Dict) (k k2 : String) (v : Value) (h : k2 ≠ k) :
    Dict.get? (Dict.set d k v) k2 = Dict.get? d k2 := by
  induction d with
  | nil => simp [Dict.set, Dict.get?, h]
  | cons kv rest ih =>
    by_cases hk : k = kv.1
    · subst hk
      simp [Dict.set, Dict.get?, h]
    · by_cases hk2 : k2 = kv.1
      · simp [Dict.set, hk, Dict.get?, hk2]
      · simp [Dict.set, hk, Dict.get?, hk2, ih]

/-- Lookup after folding `set` of `f k` over a key list: the keys of the
list map to their `f` value, every other key is looked up in the initial
dict. -/
theorem Dict.get?_foldl_set (f : String → Value) (ks : List String)
    (d : Dict) (k : String) :
    Dict.get? (ks.foldl (fun (acc : Dict) (k2 : String) => Dict.set acc k2 (f k2)) d) k
      = if k ∈ ks then some (f k) else Dict.get? d k := by
  induction ks generalizing d with
  | nil => simp
  | cons a t ih =>
    simp only [List.foldl_cons, ih]
    by_cases hkt : k ∈ t
    · simp [hkt]
    · by_cases hka : k = a
      · subst hka
        simp [hkt, Dict.get?_set_self]
      · simp [hkt, hka, Dict.get?_set_ne d a k (f a) hka]

/-- The four standard keys `pre_parse_input` seeds. -/
def stdKeys : List String := ["chat_history", "background", "image_urls", "date"]

/-- Lookup of each standard key in the seeded mapping. -/
theorem get?_pre_parse_seed_std (today : String) (io : InputObject) :
    Dict.get? (pre_parse_seed today io) "chat_history"
        = some (pyOr (io.get_data "chat_history") (.str "")) ∧
    Dict.get? (pre_parse_seed today io) "background"
        = some (pyOr (io.get_data "background") (.str "")) ∧
    Dict.get? (pre_parse_seed today io) "image_urls"
        = some (pyOr (io.get_data "image_urls") (.list [])) ∧
    Dict.get? (pre_parse_seed today io) "date" = some (.str today) := by
  refine ⟨?_, ?_, ?_, ?_⟩ <;> simp [pre_parse_seed, Dict.set, Dict.get?]

/-- A key outside the four standard ones is absent from the seeded
mapping. -/
theorem get?_pre_parse_seed_notin (today : String) (io : InputObject)
    (k : String) (h : k ∉ stdKeys) :
    Dict.get? (pre_parse_seed today io) k = Option.none := by
  simp only [stdKeys, List.mem_cons, List.not_mem_nil, or_false, not_or] at h
  obtain ⟨h1, h2, h3, h4⟩ := h
  simp [pre_parse_seed, Dict.set, Dict.get?, h1, h2, h3, h4]

/-- Shared fact: under the contract that `parse_input` leaves the four
standard fields of its `agent_input` argument untouched, the mapping
`pre_parse_input` returns binds each of `chat_history` / `background` /
`image_urls` to the `or`-defaulted read of the input object and `date`
to the current date string. -/
theorem get?_pre_parse_input_std (a : Agent) (today : String) (io : InputObject)
    (h : ∀ (io2 : InputObject) (d : Dict) (k : String), k ∈ stdKeys →
      Dict.get? (a.parse_input io2 d).1 k = Dict.get? d k) :
    Dict.get? (a.pre_parse_input today io) "chat_history"
        = some (pyOr (io.get_data "chat_history") (.str "")) ∧
    Dict.get? (a.pre_parse_input today io) "background"
        = some (pyOr (io.get_data "background") (.str "")) ∧
    Dict.get? (a.pre_parse_input today io) "image_urls"
        = some (pyOr (io.get_data "image_urls") (.list [])) ∧
    Dict.get? (a.pre_parse_input today io) "date" = some (.str today) := by
  obtain ⟨h1, h2, h3, h4⟩ := get?_pre_parse_seed_std today io
  refine ⟨?_, ?_, ?_, ?_⟩ <;>
    rw [Agent.pre_parse_input, h _ _ _ (by simp [stdKeys])]
  · exact h1
  · exact h2
  · exact h3
  · exact h4

/-! ### Concrete instances used by witnesses and counterexamples -/

/-- A demo agent model whose plan names the planner `demo`. -/
def demoModel : AgentModel :=
  { info := [("name", Value.str "demo_agent"), ("description", Value.str "a demo agent")]
    profile := []
    plan := [("planner", Value.dict [("name", Value.str "demo")])]
    memory := []
    action := [] }

/-- A concrete agent: one input key `query`, one output key `answer`,
a `parse_input` that mutates nothing and returns a fresh mapping with a
subclass field, and a `parse_result` that passes the planner result
through. -/
def demoAgent : Agent :=
  { agent_model := demoModel
    input_keys := ["query"]
    output_keys := ["answer"]
    parse_input := fun _ d => (d, [("subfield", Value.str "v")])
    parse_result := fun pr => Value.dict pr }

/-- A concrete agent whose `parse_result` drops every key, so that its
output misses the declared key `answer`. -/
def badAgent : Agent :=
  { demoAgent with parse_result := fun _ => Value.dict [] }

/-- A deterministic planner that answers `hello`. -/
def helloPlanner : PlannerFn :=
  fun _ _ _ => [("answer", Value.str "hello")]

/-- A registry resolving every name to the hello planner. -/
def demoRegistry : Registry := fun _ => some helloPlanner

/-- A registry resolving no name at all. -/
def emptyRegistry : Registry := fun _ => Option.none

/-! ### Facts about `output_check` shared by several claims -/

/-- `output_check` on a non-dict value raises the type message. -/
theorem output_check_not_dict (a : Agent) (v : Value)
    (h : ∀ d : Dict, v ≠ Value.dict d) :
    a.output_check v = .error (.outputValidation "Output type must be dict.") := by
  cases v <;> first | rfl | exact absurd rfl (h _)

/-- `output_check` on a dict missing a declared output key raises a
missing-key message. -/
theorem output_check_missing_key (a : Agent) (d : Dict) (k : String)
    (hk : k ∈ a.output_keys) (hc : Dict.containsKey d k = false) :
    ∃ k2, a.output_check (Value.dict d)
      = .error (.outputValidation ("Output must have key: " ++ k2 ++ ".")) := by
  obtain ⟨y, _, hfy, _⟩ :=
    find?_of_exists (fun k2 => !(Dict.containsKey d k2)) a.output_keys
      ⟨k, hk, by simp [hc]⟩
  exact ⟨y, by simp [Agent.output_check, hfy]⟩

/-- `output_check` accepts a dict containing every declared output key
(extra keys allowed). -/
theorem output_check_ok (a : Agent) (d : Dict)
    (hall : ∀ k ∈ a.output_keys, Dict.containsKey d k = true) :
    a.output_check (Value.dict d) = .ok d := by
  have hf := find?_none_of_all_false (fun k2 => !(Dict.containsKey d k2))
    a.output_keys (fun k hk => by simp [hall k hk])
  simp [Agent.output_check, hf]

/-- Inversion: when `output_check` succeeds with `d`, the checked value
was the dict `d` and `d` contains every declared output key. -/
theorem output_check_ok_inv (a : Agent) (v : Value) (d : Dict)
    (h : a.output_check v = .ok d) :
    v = Value.dict d ∧ ∀ k ∈ a.output_keys, Dict.containsKey d k = true := by
  unfold Agent.output_check at h
  split at h
  · split at h
    · exact absurd h (by simp)
    · rename_i hfind
      injection h with h2
      subst h2
      exact ⟨rfl, fun k hk => by
        simpa using all_false_of_find?_none _ _ hfind k hk⟩
  · exact absurd h (by simp)

/-! ### The claims -/

/-- C1: for every concrete agent and every keyword-argument mapping
missing at least one key listed by `input_keys()`, `run` raises
`InputValidationError` ('Input must have key: ...') and the planner
registry is never consulted: the error result is the same for every
registry (and every date). -/
theorem C1_missing_input_key_raises (a : Agent) (kwargs : Dict)
    (h : ∃ k ∈ a.input_keys, Dict.containsKey kwargs k = false) :
    ∃ k ∈ a.input_keys, Dict.containsKey kwargs k = false ∧
      ∀ (registry : Registry) (today : String),
        a.run registry today kwargs
          = .error (.inputValidation ("Input must have key: " ++ k ++ ".")) := by
  obtain ⟨k0, hk0, hc0⟩ := h
  obtain ⟨y, hy, hfy, hpy⟩ :=
    find?_of_exists (fun k => !(Dict.containsKey kwargs k)) a.input_keys
      ⟨k0, hk0, by simp [hc0]⟩
  refine ⟨y, hy, by simpa using hpy, fun registry today => ?_⟩
  simp [Agent.run, Agent.input_check, hfy]

/-- Witness for C1: the demo agent requires `query`; running it on the
empty keyword mapping fails for every registry and date. -/
theorem C1_missing_input_key_raises_witness :
    ∃ k ∈ demoAgent.input_keys, Dict.containsKey ([] : Dict) k = false ∧
      ∀ (registry : Registry) (today : String),
        demoAgent.run registry today []
          = .error (.inputValidation ("Input must have key: " ++ k ++ ".")) :=
  C1_missing_input_key_raises demoAgent []
    ⟨"query", by decide, by decide⟩

/-- C2: once `run` reaches `parse_result` (input check and planner
execution succeeded), a non-dict parsed result raises
`OutputValidationError`, a dict missing a declared output key raises
`OutputValidationError`, and a dict containing every declared output key
is accepted by `output_check` (extra keys allowed) so that `run`
returns it wrapped. -/
theorem C2_output_validation (a : Agent) (registry : Registry) (today : String)
    (kwargs : Dict) (pr : Dict)
    (h1 : a.input_check kwargs = .ok ())
    (h2 : a.execute registry ⟨kwargs⟩ (a.pre_parse_input today ⟨kwargs⟩) = .ok pr) :
    ((∀ d : Dict, a.parse_result pr ≠ Value.dict d) →
      ∃ msg, a.run registry today kwargs = .error (.outputValidation msg)) ∧
    (∀ (d : Dict) (k : String), a.parse_result pr = Value.dict d →
      k ∈ a.output_keys → Dict.containsKey d k = false →
      ∃ msg, a.run registry today kwargs = .error (.outputValidation msg)) ∧
    (∀ d : Dict, a.parse_result pr = Value.dict d →
      (∀ k ∈ a.output_keys, Dict.containsKey d k = true) →
      a.output_check (a.parse_result pr) = .ok d ∧
      a.run registry today kwargs = .ok ⟨d⟩) := by
  have hrun : a.run registry today kwargs =
      (match a.output_check (a.parse_result pr) with
       | .error e => .error e
       | .ok d => .ok ⟨d⟩) := by
    simp [Agent.run, h1, h2]
  refine ⟨fun hnd => ?_, fun d k hv hk hc => ?_, fun d hv hall => ?_⟩
  · exact ⟨"Output type must be dict.",
      by rw [hrun, output_check_not_dict a _ hnd]⟩
  · obtain ⟨k2, hoc⟩ := output_check_missing_key a d k hk hc
    exact ⟨"Output must have key: " ++ k2 ++ ".", by rw [hrun, hv, hoc]⟩
  · have hoc := output_check_ok a d hall
    exact ⟨by rw [hv]; exact hoc, by rw [hrun, hv, hoc]⟩

/-- Witness for C2: the bad agent parses every planner result to the
empty dict, which misses the declared key `answer`, so its `run` fails
output validation; input check and execution succeed concretely. -/
theorem C2_output_validation_witness :
    ((∀ d : Dict, badAgent.parse_result [("answer", Value.str "hello")] ≠ Value.dict d) →
      ∃ msg, badAgent.run demoRegistry "2026-10-12" [("query", Value.str "hi")]
        = .error (.outputValidation msg)) ∧
    (∀ (d : Dict) (k : String),
      badAgent.parse_result [("answer", Value.str "hello")] = Value.dict d →
      k ∈ badAgent.output_keys → Dict.containsKey d k = false →
      ∃ msg, badAgent.run demoRegistry "2026-10-12" [("query", Value.str "hi")]
        = .error (.outputValidation msg)) ∧
    (∀ d : Dict, badAgent.parse_result [("answer", Value.str "hello")] = Value.dict d →
      (∀ k ∈ badAgent.output_keys, Dict.containsKey d k = true) →
      badAgent.output_check (badAgent.parse_result [("answer", Value.str "hello")]) = .ok d ∧
      badAgent.run demoRegistry "2026-10-12" [("query", Value.str "hi")] = .ok ⟨d⟩) :=
  C2_output_validation badAgent demoRegistry "2026-10-12"
    [("query", Value.str "hi")] [("answer", Value.str "hello")] rfl rfl

/-- C3 counterexample: the key `chat_history` is present in the input
object, bound to the (falsy) value `0`, yet the pre-parsed mapping binds
`chat_history` to the default `""` rather than to the supplied value —
the claim's "bound to the value found under that key when the key is
present" fails at this input. -/
theorem C3_counterexample_falsy_present_value :
    Dict.containsKey [("chat_history", Value.int 0)] "chat_history" = true ∧
    Dict.get? (demoAgent.pre_parse_input "2024-01-01"
        ⟨[("chat_history", Value.int 0)]⟩) "chat_history"
      = some (Value.str "") ∧
    Value.str "" ≠ Value.int 0 :=
  ⟨by decide, rfl, fun h => Value.noConfusion h⟩

/-- C3 (amended): for agents whose `parse_input` honors the contract of
leaving the four standard fields untouched, the mapping returned by
`pre_parse_input` binds each of `chat_history`, `background` and
`image_urls` to the supplied value when that value is present and
truthy, and to the default (`""`, `""`, `[]`) when the key is absent or
its value is falsy; `date` is bound to the current date string. -/
theorem C3_pre_parse_input_defaults (a : Agent) (today : String) (io : InputObject)
    (h : ∀ (io2 : InputObject) (d : Dict) (k : String), k ∈ stdKeys →
      Dict.get? (a.parse_input io2 d).1 k = Dict.get? d k) :
    Dict.get? (a.pre_parse_input today io) "chat_history"
        = some (if (io.get_data "chat_history").isTruthy
            then io.get_data "chat_history" else .str "") ∧
    Dict.get? (a.pre_parse_input today io) "background"
        = some (if (io.get_data "background").isTruthy
            then io.get_data "background" else .str "") ∧
    Dict.get? (a.pre_parse_input today io) "image_urls"
        = some (if (io.get_data "image_urls").isTruthy
            then io.get_data "image_urls" else .list []) ∧
    Dict.get? (a.pre_parse_input today io) "date" = some (.str today) := by
  simpa [pyOr] using get?_pre_parse_input_std a today io h

/-- Witness for the amended C3: the demo agent on an input supplying a
truthy `chat_history` and nothing else. -/
theorem C3_pre_parse_input_defaults_witness :
    Dict.get? (demoAgent.pre_parse_input "2026-10-12"
        ⟨[("chat_history", Value.str "hi")]⟩) "chat_history"
      = some (if ((InputObject.mk [("chat_history", Value.str "hi")]).get_data
            "chat_history").isTruthy
          then (InputObject.mk [("chat_history", Value.str "hi")]).get_data "chat_history"
          else .str "") ∧
    Dict.get? (demoAgent.pre_parse_input "2026-10-12"
        ⟨[("chat_history", Value.str "hi")]⟩) "background"
      = some (if ((InputObject.mk [("chat_history", Value.str "hi")]).get_data
            "background").isTruthy
          then (InputObject.mk [("chat_history", Value.str "hi")]).get_data "background"
          else .str "") ∧
    Dict.get? (demoAgent.pre_parse_input "2026-10-12"
        ⟨[("chat_history", Value.str "hi")]⟩) "image_urls"
      = some (if ((InputObject.mk [("chat_history", Value.str "hi")]).get_data
            "image_urls").isTruthy
          then (InputObject.mk [("chat_history", Value.str "hi")]).get_data "image_urls"
          else .list []) ∧
    Dict.get? (demoAgent.pre_parse_input "2026-10-12"
        ⟨[("chat_history", Value.str "hi")]⟩) "date"
      = some (.str "2026-10-12") :=
  C3_pre_parse_input_defaults demoAgent "2026-10-12"
    ⟨[("chat_history", Value.str "hi")]⟩ (fun _ _ _ _ => rfl)

/-- C9: because each standard field is computed with the Python `or`
operator, a supplied-but-falsy `chat_history`, `background` or
`image_urls` is replaced by its default in the pre-parsed mapping
(for agents whose `parse_input` leaves the standard fields
untouched). -/
theorem C9_falsy_supplied_values_defaulted (a : Agent) (today : String) (io : InputObject)
    (h : ∀ (io2 : InputObject) (d : Dict) (k : String), k ∈ stdKeys →
      Dict.get? (a.parse_input io2 d).1 k = Dict.get? d k) :
    ((io.get_data "chat_history").isTruthy = false →
      Dict.get? (a.pre_parse_input today io) "chat_history" = some (.str "")) ∧
    ((io.get_data "background").isTruthy = false →
      Dict.get? (a.pre_parse_input today io) "background" = some (.str "")) ∧
    ((io.get_data "image_urls").isTruthy = false →
      Dict.get? (a.pre_parse_input today io) "image_urls" = some (.list [])) := by
  obtain ⟨h1, h2, h3, _⟩ := get?_pre_parse_input_std a today io h
  exact ⟨fun hf => by rw [h1]; simp [pyOr, hf],
         fun hf => by rw [h2]; simp [pyOr, hf],
         fun hf => by rw [h3]; simp [pyOr, hf]⟩

/-- Witness for C9: the demo agent on an input supplying `0`, `False`
and `[]` for the three standard fields — all falsy, all defaulted. -/
theorem C9_falsy_supplied_values_defaulted_witness :
    (((InputObject.mk [("chat_history", Value.int 0), ("background", Value.bool false),
        ("image_urls", Value.list [])]).get_data "chat_history").isTruthy = false →
      Dict.get? (demoAgent.pre_parse_input "2026-10-12"
          ⟨[("chat_history", Value.int 0), ("background", Value.bool false),
            ("image_urls", Value.list [])]⟩) "chat_history" = some (.str "")) ∧
    (((InputObject.mk [("chat_history", Value.int 0), ("background", Value.bool false),
        ("image_urls", Value.list [])]).get_data "background").isTruthy = false →
      Dict.get? (demoAgent.pre_parse_input "2026-10-12"
          ⟨[("chat_history", Value.int 0), ("background", Value.bool false),
            ("image_urls", Value.list [])]⟩) "background" = some (.str "")) ∧
    (((InputObject.mk [("chat_history", Value.int 0), ("background", Value.bool false),
        ("image_urls", Value.list [])]).get_data "image_urls").isTruthy = false →
      Dict.get? (demoAgent.pre_parse_input "2026-10-12"
          ⟨[("chat_history", Value.int 0), ("background", Value.bool false),
            ("image_urls", Value.list [])]⟩) "image_urls" = some (.list [])) :=
  C9_falsy_supplied_values_defaulted demoAgent "2026-10-12"
    ⟨[("chat_history", Value.int 0), ("background", Value.bool false),
      ("image_urls", Value.list [])]⟩ (fun _ _ _ _ => rfl)

/-- C10: `pre_parse_input` returns the mapping it seeded (as mutated by
`parse_input`) and discards `parse_input`'s return value; hence for a
subclass whose `parse_input` does not mutate its `agent_input` argument
and returns a fresh mapping, the returned mapping is exactly the seeded
one and none of the fresh mapping's non-standard keys appear in it. -/
theorem C10_parse_input_return_discarded (a : Agent) (today : String) (io : InputObject)
    (h : ∀ (io2 : InputObject) (d : Dict), (a.parse_input io2 d).1 = d) :
    a.pre_parse_input today io = pre_parse_seed today io ∧
    ∀ k ∈ Dict.keys (a.parse_input io (pre_parse_seed today io)).2,
      k ∉ stdKeys → Dict.get? (a.pre_parse_input today io) k = Option.none := by
  have he : a.pre_parse_input today io = pre_parse_seed today io := by
    rw [Agent.pre_parse_input, h]
  exact ⟨he, fun k _ hk => by rw [he]; exact get?_pre_parse_seed_notin today io k hk⟩

/-- Witness for C10: the demo agent's `parse_input` returns the fresh
mapping `[("subfield", "v")]` without mutating its argument; the field
`subfield` does not appear in the mapping `pre_parse_input` returns. -/
theorem C10_parse_input_return_discarded_witness :
    demoAgent.pre_parse_input "2026-10-12" ⟨[]⟩
        = pre_parse_seed "2026-10-12" ⟨[]⟩ ∧
    ∀ k ∈ Dict.keys (demoAgent.parse_input ⟨[]⟩ (pre_parse_seed "2026-10-12" ⟨[]⟩)).2,
      k ∉ stdKeys →
        Dict.get? (demoAgent.pre_parse_input "2026-10-12" ⟨[]⟩) k = Option.none :=
  C10_parse_input_return_discarded demoAgent "2026-10-12" ⟨[]⟩ (fun _ _ => rfl)

/-- C4: whenever `run` returns normally, the backing mapping of the
returned `OutputObject` contains every key listed by `output_keys()`
(extra keys may also be present — only membership of the declared keys
is forced). -/
theorem C4_run_output_contains_keys (a : Agent) (registry : Registry) (today : String)
    (kwargs : Dict) (oo : OutputObject)
    (h : a.run registry today kwargs = .ok oo) :
    ∀ k ∈ a.output_keys, Dict.containsKey oo.params k = true := by
  unfold Agent.run at h
  split at h
  · exact absurd h (by simp)
  · dsimp only at h
    split at h
    · exact absurd h (by simp)
    · split at h
      · exact absurd h (by simp)
      · rename_i d heq
        injection h with h2
        obtain ⟨_, hall⟩ := output_check_ok_inv a _ d heq
        intro k hk
        rw [← h2]
        exact hall k hk

/-- Witness for C4: a full successful run of the demo agent through the
demo registry; the output backing mapping contains `answer`. -/
theorem C4_run_output_contains_keys_witness :
    Dict.containsKey (OutputObject.mk [("answer", Value.str "hello")]).params "answer" = true :=
  C4_run_output_contains_keys demoAgent demoRegistry "2026-10-12"
    [("query", Value.str "hi")] ⟨[("answer", Value.str "hello")]⟩ rfl
    "answer" (by decide)

/-- C5: on any input string the JSON-markdown parser rejects,
`langchain_run` does not raise: it returns the literal sentinel string
(the logging call has no effect on the result). -/
theorem C5_parse_failure_returns_error_string (a : Agent) (pjm : String → Option Dict)
    (registry : Registry) (today : String) (input : String) (callbacks : Value)
    (kwargs : Dict) (h : pjm input = Option.none) :
    a.langchain_run pjm registry today input callbacks kwargs
      = .ok (Value.str "Error , Your Action Input is not a valid JSON string") := by
  simp [Agent.langchain_run, h]

/-- Witness for C5: a parser rejecting everything. -/
theorem C5_parse_failure_returns_error_string_witness :
    demoAgent.langchain_run (fun _ => Option.none) demoRegistry "2026-10-12"
        "not json" Value.none []
      = .ok (Value.str "Error , Your Action Input is not a valid JSON string") :=
  C5_parse_failure_returns_error_string demoAgent (fun _ => Option.none)
    demoRegistry "2026-10-12" "not json" Value.none [] rfl

/-- C6: when the JSON-markdown parser succeeds and the underlying `run`
succeeds, `langchain_run` returns a mapping whose key set is exactly
`output_keys()`, each key bound to the corresponding value of the run's
`OutputObject`. -/
theorem C6_result_projected_to_output_keys (a : Agent) (pjm : String → Option Dict)
    (registry : Registry) (today : String) (input : String) (callbacks : Value)
    (kwargs : Dict) (pr : Dict) (oo : OutputObject)
    (h1 : pjm input = some pr)
    (h2 : a.run registry today (langchain_kwargs pr callbacks kwargs) = .ok oo) :
    ∃ rd : Dict,
      a.langchain_run pjm registry today input callbacks kwargs
        = .ok (Value.dict rd) ∧
      (∀ k ∈ a.output_keys, Dict.get? rd k = some (oo.get_data k)) ∧
      (∀ k, k ∉ a.output_keys → Dict.get? rd k = Option.none) := by
  refine ⟨a.output_keys.foldl
      (fun (d : Dict) (k : String) => Dict.set d k (oo.get_data k)) [],
    by simp [Agent.langchain_run, h1, h2], fun k hk => ?_, fun k hk => ?_⟩
  · have := Dict.get?_foldl_set (fun k2 => oo.get_data k2) a.output_keys [] k
    simpa [hk] using this
  · have := Dict.get?_foldl_set (fun k2 => oo.get_data k2) a.output_keys [] k
    simpa [hk, Dict.get?] using this

/-- Witness for C6: a parser producing `query = \"hi\"`, the demo agent
and registry; the projected result binds exactly `answer`. -/
theorem C6_result_projected_to_output_keys_witness :
    ∃ rd : Dict,
      demoAgent.langchain_run (fun _ => some [("query", Value.str "hi")])
          demoRegistry "2026-10-12" "any" Value.none []
        = .ok (Value.dict rd) ∧
      (∀ k ∈ demoAgent.output_keys,
        Dict.get? rd k
          = some ((OutputObject.mk [("answer", Value.str "hello")]).get_data k)) ∧
      (∀ k, k ∉ demoAgent.output_keys → Dict.get? rd k = Option.none) :=
  C6_result_projected_to_output_keys demoAgent
    (fun _ => some [("query", Value.str "hi")]) demoRegistry "2026-10-12"
    "any" Value.none [] [("query", Value.str "hi")]
    ⟨[("answer", Value.str "hello")]⟩ rfl rfl

/-- C7: `run` keeps no mutable state across calls — the state-threaded
form returns the agent unchanged, so a second call on the resulting
state with identical inputs, the same registry (deterministic planner)
and the same date produces an identical result. -/
theorem C7_run_stateless_repeatable (a : Agent) (registry : Registry)
    (today : String) (kwargs : Dict) :
    (a.runS registry today kwargs).2 = a ∧
    ((a.runS registry today kwargs).2.runS registry today kwargs).1
      = (a.runS registry today kwargs).1 :=
  ⟨rfl, rfl⟩

/-- C8: `get_instance_code` joins the application name, the lower-cased
component type identifier (`agent`) and the agent's `info['name']` with
dots. -/
theorem C8_get_instance_code_format (a : Agent) (appname nm : String)
    (h : Dict.getData a.agent_model.info "name" = Value.str nm) :
    a.get_instance_code appname = appname ++ "." ++ "agent" ++ "." ++ nm := by
  have hl : asciiLower componentTypeAgentValue = "agent" := rfl
  simp [Agent.get_instance_code, h, hl, Value.pyStr]

/-- Witness for C8: the demo agent in an application named `myapp`. -/
theorem C8_get_instance_code_format_witness :
    demoAgent.get_instance_code "myapp"
      = "myapp" ++ "." ++ "agent" ++ "." ++ "demo_agent" :=
  C8_get_instance_code_format demoAgent "myapp" "demo_agent" rfl

end AgentUniverse
